import Mathlib

/-!
Shallow embedding of the two launcher scripts of this repository:

* `src/python-package/python-pkg/tempo_cli/main.py` — the tempo launcher:
  resolves the real tempo binary (search-path lookup of the alternate names
  `tempo-bin` / `tempo-rs`, falling back to a fixed list of well-known
  installation paths guarded by a byte-prefix "python" signature check),
  then spawns it with the forwarded argument vector and propagates its
  exit status.
* `src/python-package/python-pkg/vibe_cli/main.py` — the vibe launcher:
  a single `shutil.which('vibe')` lookup followed by the same delegation.

The filesystem and process environment are modelled explicitly so that the
resolution and delegation logic become pure functions of them.  Exceptions
raised while opening or reading a file are modelled by `content` returning
`none`; the outcome of the one `subprocess.run` call is an input
(`RunOutcome`), since the child's behaviour is outside this repository.
-/

/-- A snapshot of the filesystem, as the launchers observe it.
`isFile p` models `os.path.isfile(p)`; `isExec p` models
`os.access(p, os.X_OK)`; `content p` is the byte content of `p`
(`none` models an exception raised by `open`/`read`). -/
structure FSys where
  isFile : String → Bool
  isExec : String → Bool
  content : String → Option (List Nat)

/-- `shutil.which name` over an explicit list of search-path directories:
the first directory entry `d` for which `d ++ "/" ++ name` is an existing
executable file.  (POSIX `shutil.which` accepts a path iff it exists, is
not a directory, and is executable by the current user; we model that test
as `isFile && isExec`.) -/
def which (fs : FSys) (pathDirs : List String) (name : String) : Option String :=
  (pathDirs.map (fun d => d ++ "/" ++ name)).find?
    (fun p => fs.isFile p && fs.isExec p)

/-- The first loop of `tempo_cli.main`: `for binary_name in ['tempo-bin',
'tempo-rs']: tempo_path = shutil.which(binary_name); if tempo_path: break`.
After the loop `tempo_path` holds the first successful lookup, else the
result of the last one (`None`). -/
def findAlt (fs : FSys) (pathDirs : List String) : Option String :=
  match which fs pathDirs "tempo-bin" with
  | some p => some p
  | none => which fs pathDirs "tempo-rs"

/-- The `possible_paths` list of `tempo_cli.main`:
`[os.path.expanduser('~/.cargo/bin/tempo'), '/usr/local/bin/tempo-bin',
'/opt/homebrew/bin/tempo-bin']`, with `~` expanded to `home`. -/
def possiblePaths (home : String) : List String :=
  [home ++ "/.cargo/bin/tempo", "/usr/local/bin/tempo-bin",
   "/opt/homebrew/bin/tempo-bin"]

/-- `bytes.lower()` on a single byte: ASCII upper-case letters map to
lower case, all other bytes are unchanged. -/
def lowerByte (b : Nat) : Nat :=
  if 65 ≤ b ∧ b ≤ 90 then b + 32 else b

/-- The byte string `b'python'`. -/
def pythonSig : List Nat := [112, 121, 116, 104, 111, 110]

/-- `startsWith needle hay` is true iff `needle` is an initial segment of
`hay` (used to express Python's `in` test on byte strings). -/
def startsWith : List Nat → List Nat → Bool
  | [], _ => true
  | _ :: _, [] => false
  | a :: as, b :: bs => a == b && startsWith as bs

/-- `bytesContain needle hay` models Python's `needle in hay` on byte
strings: `needle` occurs contiguously somewhere in `hay`. -/
def bytesContain (needle : List Nat) : List Nat → Bool
  | [] => needle.isEmpty
  | b :: rest => startsWith needle (b :: rest) || bytesContain needle rest

/-- The signature test of `tempo_cli.main` on a file's byte content:
`header = f.read(50)` followed by `b'python' in header.lower()`.
`true` means the candidate is rejected. -/
def sigRejected (bytes : List Nat) : Bool :=
  bytesContain pythonSig ((bytes.take 50).map lowerByte)

/-- One iteration of the well-known-path loop of `tempo_cli.main`: the
candidate is accepted iff it is an executable regular file, the 50-byte
read succeeds, and the python signature is absent.  A read exception
(`content = none`) falls into `except: continue`, i.e. rejection. -/
def probeCandidate (fs : FSys) (path : String) : Bool :=
  fs.isFile path && fs.isExec path &&
    (match fs.content path with
     | none => false
     | some bytes => !(sigRejected bytes))

/-- The well-known-path loop over an explicit candidate list: first
accepted candidate wins (the loop `break`s on success). -/
def probeList (fs : FSys) (paths : List String) : Option String :=
  paths.find? (probeCandidate fs)

/-- The full fallback probe of `tempo_cli.main` over `possible_paths`. -/
def probeWellKnown (fs : FSys) (home : String) : Option String :=
  probeList fs (possiblePaths home)

/-- The complete resolution step of `tempo_cli.main`: the search-path
lookup of the alternate names, and only if it produced nothing
(`if not tempo_path:`) the well-known-path probe. -/
def resolve (fs : FSys) (pathDirs : List String) (home : String) : Option String :=
  match findAlt fs pathDirs with
  | some p => some p
  | none => probeWellKnown fs home

/-- Outcome of the single `subprocess.run` call: the child ran to
completion with `returncode c`, the wait was interrupted by
`KeyboardInterrupt`, or some other exception with message `msg` was
raised. -/
inductive RunOutcome where
  | completed (c : Int)
  | interrupted
  | failed (msg : String)

/-- Observable result of one launcher invocation: the process exit code,
the list of child spawns (executable and full argument vector passed to
`subprocess.run`), and the lines printed. -/
structure MainResult where
  exitCode : Int
  spawns : List (String × List String)
  output : List String

/-- The remediation guidance printed by `tempo_cli.main` when no binary
is found. -/
def tempoNotFoundMsg : List String :=
  ["❌ Tempo binary not found in PATH.",
   "\nThis usually means the installation didn't complete successfully.",
   "Please try one of these alternatives:",
   "  1. Install via cargo: cargo install tempo",
   "  2. Install via homebrew: brew install tempo",
   "  3. Reinstall this package: pip install --force-reinstall tempo-cli"]

/-- `main` of `tempo_cli/main.py`.  `argv` is the full `sys.argv`
(program name included); `run exe cmd` is the outcome of
`subprocess.run(cmd, check=False, text=True)` where `cmd = [exe] +
sys.argv[1:]`.  The dead loop over `sys.path` in the source is a no-op
and is omitted. -/
def tempoMain (fs : FSys) (pathDirs : List String) (home : String)
    (argv : List String) (run : String → List String → RunOutcome) : MainResult :=
  match resolve fs pathDirs home with
  | none => { exitCode := 1, spawns := [], output := tempoNotFoundMsg }
  | some p =>
    let cmd := p :: argv.drop 1
    match run p cmd with
    | .completed c => { exitCode := c, spawns := [(p, cmd)], output := [] }
    | .interrupted => { exitCode := 130, spawns := [(p, cmd)], output := [] }
    | .failed e =>
      { exitCode := 1, spawns := [(p, cmd)],
        output := ["❌ Error running tempo: " ++ e] }

/-- The remediation guidance printed by `vibe_cli.main` when no binary is
found. -/
def vibeNotFoundMsg : List String :=
  ["❌ Vibe binary not found in PATH.",
   "\nThis usually means the installation didn't complete successfully.",
   "Please try one of these alternatives:",
   "  1. Install via cargo: cargo install vibe",
   "  2. Install via homebrew: brew install own-path/tap/vibe",
   "  3. Reinstall this package: pip install --force-reinstall vibe-cli"]

/-- `main` of `vibe_cli/main.py`: a single `shutil.which('vibe')` lookup
followed by the same delegation logic as the tempo launcher. -/
def vibeMain (fs : FSys) (pathDirs : List String)
    (argv : List String) (run : String → List String → RunOutcome) : MainResult :=
  match which fs pathDirs "vibe" with
  | none => { exitCode := 1, spawns := [], output := vibeNotFoundMsg }
  | some p =>
    let cmd := p :: argv.drop 1
    match run p cmd with
    | .completed c => { exitCode := c, spawns := [(p, cmd)], output := [] }
    | .interrupted => { exitCode := 130, spawns := [(p, cmd)], output := [] }
    | .failed e =>
      { exitCode := 1, spawns := [(p, cmd)],
        output := ["❌ Error running vibe: " ++ e] }

/-- ASCII byte list of a string (used to build concrete file contents). -/
def asciiBytes (s : String) : List Nat :=
  s.toList.map Char.toNat

/-- The last path component of `p`: the segment after the final slash. -/
def lastComp (l : List Char) : List Char :=
  l.foldl (fun acc c => if c = '/' then [] else acc ++ [c]) []

/-- Base name of a path string. -/
def baseName (p : String) : String :=
  String.mk (lastComp p.toList)

/-- Byte content of a copy of the Python wrapper script: the shebang line
`#!/usr/bin/env python3` puts the `python` signature inside the first 50
bytes. -/
def wrapperBytes : List Nat := asciiBytes "#!/usr/bin/env python3\n"

/-- Byte content of a native ELF executable: no `python` signature. -/
def nativeBytes : List Nat := [127, 69, 76, 70, 2, 1, 1, 0]

/-- A filesystem in which the search-path directory `/u` holds an
executable `tempo-bin` that is a copy of the Python wrapper. -/
def cxFS : FSys :=
  { isFile := fun p => p == "/u/tempo-bin"
    isExec := fun p => p == "/u/tempo-bin"
    content := fun p =>
      if p == "/u/tempo-bin" then some wrapperBytes else none }

/-- The scenario of the spec: the search-path directory `/u` holds a
native `tempo-bin`, while the well-known cargo path of home `/h` holds a
wrapper copy named `tempo`. -/
def scFS : FSys :=
  { isFile := fun p => p == "/u/tempo-bin" || p == "/h/.cargo/bin/tempo"
    isExec := fun p => p == "/u/tempo-bin" || p == "/h/.cargo/bin/tempo"
    content := fun p =>
      if p == "/u/tempo-bin" then some nativeBytes
      else if p == "/h/.cargo/bin/tempo" then some wrapperBytes
      else none }

/-- A filesystem with no files at all. -/
def emptyFS : FSys :=
  { isFile := fun _ => false
    isExec := fun _ => false
    content := fun _ => none }

/-- A filesystem in which the cargo candidate of home `/h` exists and is
executable but reading it raises (`content = none`), while the
`/usr/local` candidate is a readable native binary. -/
def c9FS : FSys :=
  { isFile := fun p => p == "/h/.cargo/bin/tempo" || p == "/usr/local/bin/tempo-bin"
    isExec := fun p => p == "/h/.cargo/bin/tempo" || p == "/usr/local/bin/tempo-bin"
    content := fun p =>
      if p == "/usr/local/bin/tempo-bin" then some nativeBytes else none }

/-- A filesystem in which the search-path directory `/u` holds an
executable `vibe` that is itself a copy of the wrapper. -/
def vFS : FSys :=
  { isFile := fun p => p == "/u/vibe"
    isExec := fun p => p == "/u/vibe"
    content := fun p =>
      if p == "/u/vibe" then some wrapperBytes else none }

/-- A successful `shutil.which` lookup returns a path that exists as a
regular file and is executable, by construction of the search
predicate. -/
theorem which_isFile_isExec {fs : FSys} {pathDirs : List String} {name p : String}
    (h : which fs pathDirs name = some p) :
    fs.isFile p = true ∧ fs.isExec p = true := by
  simpa [Bool.and_eq_true] using List.find?_some h

/-- A successful alternate-name lookup returns an existing executable
file. -/
theorem findAlt_isFile_isExec {fs : FSys} {pathDirs : List String} {p : String}
    (h : findAlt fs pathDirs = some p) :
    fs.isFile p = true ∧ fs.isExec p = true := by
  unfold findAlt at h
  cases hw : which fs pathDirs "tempo-bin" with
  | some q =>
    rw [hw] at h
    obtain rfl : q = p := by simpa using h
    exact which_isFile_isExec hw
  | none =>
    rw [hw] at h
    exact which_isFile_isExec h

/-- Characterisation of acceptance by the well-known-path loop body. -/
theorem probeCandidate_eq_true_iff {fs : FSys} {p : String} :
    probeCandidate fs p = true ↔
      fs.isFile p = true ∧ fs.isExec p = true ∧
        ∃ bytes, fs.content p = some bytes ∧ sigRejected bytes = false := by
  unfold probeCandidate
  cases hc : fs.content p with
  | none => simp
  | some bytes => simp [Bool.and_eq_true, and_assoc]

/-- A read exception (`except: continue`) makes the loop body reject the
candidate. -/
theorem probeCandidate_of_content_none {fs : FSys} {q : String}
    (h : fs.content q = none) : probeCandidate fs q = false := by
  unfold probeCandidate
  rw [h]
  simp

/-- A successful well-known-path probe returns one of the fixed candidate
paths, and that candidate passed all loop-body checks. -/
theorem probeWellKnown_mem_valid {fs : FSys} {home p : String}
    (h : probeWellKnown fs home = some p) :
    p ∈ possiblePaths home ∧ probeCandidate fs p = true :=
  ⟨List.mem_of_find?_eq_some h, List.find?_some h⟩

/-- `startsWith` agrees with the existence of a completing tail. -/
theorem startsWith_iff_exists : ∀ (n h : List Nat),
    startsWith n h = true ↔ ∃ t, h = n ++ t
  | [], h => by simp [startsWith]
  | a :: as, [] => by simp [startsWith]
  | a :: as, b :: bs => by
    rw [show startsWith (a :: as) (b :: bs) = (a == b && startsWith as bs) from rfl,
        Bool.and_eq_true, beq_iff_eq, startsWith_iff_exists as bs]
    constructor
    · rintro ⟨rfl, t, rfl⟩
      exact ⟨t, rfl⟩
    · rintro ⟨t, ht⟩
      injection ht with h1 h2
      exact ⟨h1.symm, t, h2⟩

/-- `bytesContain` agrees with the existence of a contiguous-occurrence
decomposition, i.e. with Python's `in` on byte strings. -/
theorem bytesContain_iff_exists : ∀ (n h : List Nat),
    bytesContain n h = true ↔ ∃ l₁ l₂, h = l₁ ++ n ++ l₂
  | n, [] => by
    constructor
    · intro hc
      have hn : n = [] := by
        cases n with
        | nil => rfl
        | cons a as => simp [bytesContain] at hc
      exact ⟨[], [], by simp [hn]⟩
    · rintro ⟨l₁, l₂, h⟩
      have h' := h.symm
      rw [List.append_assoc, List.append_eq_nil] at h'
      obtain ⟨h1, h2⟩ := h'
      rw [List.append_eq_nil] at h2
      simp [bytesContain, h2.1]
  | n, b :: rest => by
    rw [show bytesContain n (b :: rest)
          = (startsWith n (b :: rest) || bytesContain n rest) from rfl,
        Bool.or_eq_true, startsWith_iff_exists, bytesContain_iff_exists n rest]
    constructor
    · rintro (⟨t, ht⟩ | ⟨l₁, l₂, hl⟩)
      · exact ⟨[], t, by simpa using ht⟩
      · exact ⟨b :: l₁, l₂, by simp [hl]⟩
    · rintro ⟨l₁, l₂, hh⟩
      cases l₁ with
      | nil => exact Or.inl ⟨l₂, by simpa using hh⟩
      | cons x xs =>
        rw [List.cons_append, List.cons_append] at hh
        injection hh with h1 h2
        exact Or.inr ⟨xs, l₂, by simpa using h2⟩

/-- Once resolution succeeded, `tempoMain` is exactly the delegation step
on the resolved path. -/
theorem tempoMain_resolved {fs : FSys} {pathDirs : List String} {home p : String}
    (argv : List String) (run : String → List String → RunOutcome)
    (h : resolve fs pathDirs home = some p) :
    tempoMain fs pathDirs home argv run =
      (match run p (p :: argv.drop 1) with
       | .completed c => { exitCode := c, spawns := [(p, p :: argv.drop 1)], output := [] }
       | .interrupted => { exitCode := 130, spawns := [(p, p :: argv.drop 1)], output := [] }
       | .failed e =>
         { exitCode := 1, spawns := [(p, p :: argv.drop 1)],
           output := ["❌ Error running tempo: " ++ e] }) := by
  unfold tempoMain
  rw [h]

/-- Once the `vibe` lookup succeeded, `vibeMain` is exactly the
delegation step on the resolved path. -/
theorem vibeMain_resolved {fs : FSys} {pathDirs : List String} {p : String}
    (argv : List String) (run : String → List String → RunOutcome)
    (h : which fs pathDirs "vibe" = some p) :
    vibeMain fs pathDirs argv run =
      (match run p (p :: argv.drop 1) with
       | .completed c => { exitCode := c, spawns := [(p, p :: argv.drop 1)], output := [] }
       | .interrupted => { exitCode := 130, spawns := [(p, p :: argv.drop 1)], output := [] }
       | .failed e =>
         { exitCode := 1, spawns := [(p, p :: argv.drop 1)],
           output := ["❌ Error running vibe: " ++ e] }) := by
  unfold vibeMain
  rw [h]

/-- Claim C1, counterexample: as stated the claim is false on the code.
In an environment whose search path holds an executable `tempo-bin` that
is a copy of the Python wrapper (shebang `#!/usr/bin/env python3`, so the
`python` signature lies inside the first 50 bytes), the search-path
branch returns it: the script-signature exclusion is applied only in the
well-known-directory branch, not to `shutil.which` results. -/
theorem C1_counterexample :
    resolve cxFS ["/u"] "/h" = some "/u/tempo-bin" ∧
      cxFS.content "/u/tempo-bin" = some wrapperBytes ∧
      sigRejected wrapperBytes = true := by decide

/-- Claim C1, amended: every path returned by the resolution step exists
as a regular file and is executable by the current user; when the
search-path lookup of the alias names failed and the path therefore came
from the well-known-directory probe, additionally its content was read
successfully and its 50-byte prefix does not contain the `python`
signature.  The search-path branch performs no signature check. -/
theorem C1_resolved_valid {fs : FSys} {pathDirs : List String} {home p : String}
    (h : resolve fs pathDirs home = some p) :
    fs.isFile p = true ∧ fs.isExec p = true ∧
      (findAlt fs pathDirs = none →
        ∃ bytes, fs.content p = some bytes ∧ sigRejected bytes = false) := by
  unfold resolve at h
  cases hf : findAlt fs pathDirs with
  | some q =>
    rw [hf] at h
    obtain rfl : q = p := by simpa using h
    obtain ⟨h1, h2⟩ := findAlt_isFile_isExec hf
    exact ⟨h1, h2, fun hc => absurd hc (by simp [hf])⟩
  | none =>
    rw [hf] at h
    obtain ⟨hmem, hval⟩ := probeWellKnown_mem_valid h
    rw [probeCandidate_eq_true_iff] at hval
    exact ⟨hval.1, hval.2.1, fun _ => hval.2.2⟩

/-- Witness for the amended C1: in the spec scenario the resolver picks
the search-path `tempo-bin`, which exists and is executable. -/
theorem C1_witness :
    scFS.isFile "/u/tempo-bin" = true ∧ scFS.isExec "/u/tempo-bin" = true ∧
      (findAlt scFS ["/u"] = none →
        ∃ bytes, scFS.content "/u/tempo-bin" = some bytes ∧
          sigRejected bytes = false) :=
  C1_resolved_valid (by decide : resolve scFS ["/u"] "/h" = some "/u/tempo-bin")

/-- Claim C2: when the search-path lookup of the alternate names
succeeds, the resolution returns its result for every home directory,
and that result is invariant under arbitrary replacement of every file's
content — the well-known-directory candidates are never examined (their
bytes are never read). -/
theorem C2_searchpath_priority {fs : FSys} {pathDirs : List String}
    (home p : String) (c : String → Option (List Nat))
    (h : findAlt fs pathDirs = some p) :
    resolve fs pathDirs home = some p ∧
      resolve { fs with content := c } pathDirs home = some p := by
  have h' : findAlt { fs with content := c } pathDirs = some p := h
  constructor
  · unfold resolve
    rw [h]
  · unfold resolve
    rw [h']

/-- Witness for C2, the spec scenario: the search path holds a native
`tempo-bin` and the well-known cargo directory holds a wrapper copy; the
resolver picks `tempo-bin`, even if every file content is replaced. -/
theorem C2_witness :
    resolve scFS ["/u"] "/h" = some "/u/tempo-bin" ∧
      resolve { scFS with content := fun _ => none } ["/u"] "/h"
        = some "/u/tempo-bin" :=
  C2_searchpath_priority "/h" "/u/tempo-bin" (fun _ => none) (by decide)

/-- Claim C3: when resolution finds nothing, the launcher exits with the
non-zero status 1, spawns no child process, and prints the numbered
remediation guidance. -/
theorem C3_resolution_failure {fs : FSys} {pathDirs : List String} {home : String}
    (argv : List String) (run : String → List String → RunOutcome)
    (h : resolve fs pathDirs home = none) :
    (tempoMain fs pathDirs home argv run).exitCode ≠ 0 ∧
      (tempoMain fs pathDirs home argv run).spawns = [] ∧
      (tempoMain fs pathDirs home argv run).output = tempoNotFoundMsg := by
  unfold tempoMain
  rw [h]
  exact ⟨(by decide : (1 : Int) ≠ 0), rfl, rfl⟩

/-- Witness for C3 on the empty filesystem. -/
theorem C3_witness :
    (tempoMain emptyFS ["/u"] "/h" ["tempo"]
        (fun _ _ => RunOutcome.completed 0)).exitCode ≠ 0 ∧
      (tempoMain emptyFS ["/u"] "/h" ["tempo"]
          (fun _ _ => RunOutcome.completed 0)).spawns = [] ∧
      (tempoMain emptyFS ["/u"] "/h" ["tempo"]
          (fun _ _ => RunOutcome.completed 0)).output = tempoNotFoundMsg :=
  C3_resolution_failure ["tempo"] (fun _ _ => RunOutcome.completed 0) (by decide)

/-- Claim C4: whenever resolution succeeds, the resolved candidate is
spawned exactly once, with the argument vector being the resolved path
followed by the launcher's own argument vector minus its program name —
element for element, in order, whatever the child then does. -/
theorem C4_args_forwarded {fs : FSys} {pathDirs : List String} {home p : String}
    (argv : List String) (run : String → List String → RunOutcome)
    (h : resolve fs pathDirs home = some p) :
    (tempoMain fs pathDirs home argv run).spawns = [(p, p :: argv.drop 1)] := by
  rw [tempoMain_resolved argv run h]
  cases hr : run p (p :: argv.drop 1) <;> rfl

/-- Witness for C4: concrete arguments are forwarded verbatim. -/
theorem C4_witness :
    (tempoMain scFS ["/u"] "/h" ["tempo", "start", "--now"]
        (fun _ _ => RunOutcome.completed 0)).spawns
      = [("/u/tempo-bin", ["/u/tempo-bin", "start", "--now"])] :=
  C4_args_forwarded ["tempo", "start", "--now"]
    (fun _ _ => RunOutcome.completed 0) (by decide)

/-- Claim C5: when the child runs to completion with exit code `c`, the
launcher's own exit code is exactly `c`. -/
theorem C5_exit_propagated {fs : FSys} {pathDirs : List String} {home p : String}
    (argv : List String) (run : String → List String → RunOutcome) (c : Int)
    (h : resolve fs pathDirs home = some p)
    (hr : run p (p :: argv.drop 1) = RunOutcome.completed c) :
    (tempoMain fs pathDirs home argv run).exitCode = c := by
  rw [tempoMain_resolved argv run h, hr]

/-- Witness for C5 at the child exit codes 0, 1 and 2. -/
theorem C5_witness :
    (tempoMain scFS ["/u"] "/h" ["tempo"]
        (fun _ _ => RunOutcome.completed 0)).exitCode = 0 ∧
      (tempoMain scFS ["/u"] "/h" ["tempo"]
          (fun _ _ => RunOutcome.completed 1)).exitCode = 1 ∧
      (tempoMain scFS ["/u"] "/h" ["tempo"]
          (fun _ _ => RunOutcome.completed 2)).exitCode = 2 :=
  ⟨C5_exit_propagated ["tempo"] (fun _ _ => RunOutcome.completed 0) 0
     (by decide : resolve scFS ["/u"] "/h" = some "/u/tempo-bin") rfl,
   C5_exit_propagated ["tempo"] (fun _ _ => RunOutcome.completed 1) 1
     (by decide : resolve scFS ["/u"] "/h" = some "/u/tempo-bin") rfl,
   C5_exit_propagated ["tempo"] (fun _ _ => RunOutcome.completed 2) 2
     (by decide : resolve scFS ["/u"] "/h" = some "/u/tempo-bin") rfl⟩

/-- Claim C6: when the wait on the child is interrupted by
`KeyboardInterrupt`, the launcher exits with the POSIX SIGINT code
130. -/
theorem C6_interrupt_exit {fs : FSys} {pathDirs : List String} {home p : String}
    (argv : List String) (run : String → List String → RunOutcome)
    (h : resolve fs pathDirs home = some p)
    (hr : run p (p :: argv.drop 1) = RunOutcome.interrupted) :
    (tempoMain fs pathDirs home argv run).exitCode = 130 := by
  rw [tempoMain_resolved argv run h, hr]

/-- Witness for C6. -/
theorem C6_witness :
    (tempoMain scFS ["/u"] "/h" ["tempo"]
        (fun _ _ => RunOutcome.interrupted)).exitCode = 130 :=
  C6_interrupt_exit ["tempo"] (fun _ _ => RunOutcome.interrupted)
    (by decide : resolve scFS ["/u"] "/h" = some "/u/tempo-bin") rfl

/-- Claim C7: any non-interrupt failure while spawning or awaiting the
child is caught, reported as the single error line, and the launcher
exits with the non-zero status 1. -/
theorem C7_delegation_failure {fs : FSys} {pathDirs : List String} {home p : String}
    (argv : List String) (run : String → List String → RunOutcome) (e : String)
    (h : resolve fs pathDirs home = some p)
    (hr : run p (p :: argv.drop 1) = RunOutcome.failed e) :
    (tempoMain fs pathDirs home argv run).exitCode ≠ 0 ∧
      (tempoMain fs pathDirs home argv run).exitCode = 1 ∧
      (tempoMain fs pathDirs home argv run).output
        = ["❌ Error running tempo: " ++ e] := by
  rw [tempoMain_resolved argv run h, hr]
  exact ⟨(by decide : (1 : Int) ≠ 0), rfl, rfl⟩

/-- Witness for C7. -/
theorem C7_witness :
    (tempoMain scFS ["/u"] "/h" ["tempo"]
        (fun _ _ => RunOutcome.failed "No such file or directory")).exitCode ≠ 0 ∧
      (tempoMain scFS ["/u"] "/h" ["tempo"]
          (fun _ _ => RunOutcome.failed "No such file or directory")).exitCode = 1 ∧
      (tempoMain scFS ["/u"] "/h" ["tempo"]
          (fun _ _ => RunOutcome.failed "No such file or directory")).output
        = ["❌ Error running tempo: " ++ "No such file or directory"] :=
  C7_delegation_failure ["tempo"]
    (fun _ _ => RunOutcome.failed "No such file or directory")
    "No such file or directory"
    (by decide : resolve scFS ["/u"] "/h" = some "/u/tempo-bin") rfl

/-- Claim C8, counterexample: the claim is false on the code — the first
well-known candidate, the cargo path, bears the launcher's own
invocation name `tempo`, not an alternate name. -/
theorem C8_counterexample :
    "/h/.cargo/bin/tempo" ∈ possiblePaths "/h" ∧
      baseName "/h/.cargo/bin/tempo" = "tempo" := by decide

/-- Claim C8, amended: of the three well-known candidates, the per-user
cargo path is probed under the tool's real name `tempo` (identical to
the launcher's own invocation name; the signature check guards against
self-selection there), while the two system-wide fallback paths use the
alternate name `tempo-bin`.  This holds for every home directory. -/
theorem C8_amended_names (home : String) :
    (possiblePaths home).map baseName = ["tempo", "tempo-bin", "tempo-bin"] := by
  have key : ∀ acc : List Char,
      String.mk (List.foldl (fun acc c => if c = '/' then [] else acc ++ [c]) acc
        ("/.cargo/bin/tempo").toList) = "tempo" := fun _ => rfl
  have h1 : baseName (home ++ "/.cargo/bin/tempo") = "tempo" := by
    unfold baseName lastComp
    rw [show (home ++ "/.cargo/bin/tempo").toList
          = home.toList ++ ("/.cargo/bin/tempo").toList from rfl,
        List.foldl_append]
    exact key _
  simp only [possiblePaths, List.map]
  rw [h1]
  decide

/-- Claim C9: for every filesystem state, the well-known-directory probe
is total — any candidate whose open/read raises is skipped in favor of
the rest of the fixed order; the signature decision depends only on the
first 50 content bytes; a content is rejected exactly when the byte
string `python` occurs contiguously, case-insensitively, within those
bytes; and whenever the probe returns a candidate, it is one of the
fixed candidates, validated by the loop body. -/
theorem C9_probe_total_and_signature (fs : FSys) (home : String) :
    (∀ (q : String) (paths : List String), fs.content q = none →
        probeList fs (q :: paths) = probeList fs paths) ∧
      (∀ b₁ b₂ : List Nat, b₁.take 50 = b₂.take 50 →
        sigRejected b₁ = sigRejected b₂) ∧
      (∀ b : List Nat, sigRejected b = true ↔
          ∃ l₁ l₂, (b.take 50).map lowerByte = l₁ ++ pythonSig ++ l₂) ∧
      (∀ p : String, probeWellKnown fs home = some p →
          p ∈ possiblePaths home ∧ probeCandidate fs p = true) := by
  refine ⟨fun q paths hexn => ?_, fun b₁ b₂ hpre => ?_, fun b => ?_,
    fun p hfound => probeWellKnown_mem_valid hfound⟩
  · unfold probeList
    rw [List.find?_cons_of_neg]
    simp [probeCandidate_of_content_none hexn]
  · unfold sigRejected
    rw [hpre]
  · exact bytesContain_iff_exists pythonSig ((b.take 50).map lowerByte)

/-- Witness for C9: the unreadable cargo candidate is skipped, the probe
settles on the readable native `/usr/local` candidate, and the wrapper
bytes are rejected by the signature test via the occurrence
characterisation. -/
theorem C9_witness :
    probeList c9FS ["/h/.cargo/bin/tempo", "/usr/local/bin/tempo-bin",
        "/opt/homebrew/bin/tempo-bin"]
      = probeList c9FS ["/usr/local/bin/tempo-bin", "/opt/homebrew/bin/tempo-bin"] ∧
    (sigRejected wrapperBytes = true ↔
      ∃ l₁ l₂, (wrapperBytes.take 50).map lowerByte = l₁ ++ pythonSig ++ l₂) ∧
    "/usr/local/bin/tempo-bin" ∈ possiblePaths "/h" ∧
    probeCandidate c9FS "/usr/local/bin/tempo-bin" = true := by
  obtain ⟨h1, h2, h3, h4⟩ := C9_probe_total_and_signature c9FS "/h"
  exact ⟨h1 "/h/.cargo/bin/tempo"
      ["/usr/local/bin/tempo-bin", "/opt/homebrew/bin/tempo-bin"] (by decide),
    h3 wrapperBytes,
    h4 "/usr/local/bin/tempo-bin" (by decide)⟩

/-- Claim C10: the vibe launcher resolves solely by the single
search-path lookup of the name `vibe`: its whole behaviour is invariant
under arbitrary replacement of every file's content (no byte of any file
is ever read, hence no signature exclusion and a wrapper copy is
delegated to like any other hit); when the lookup fails it exits 1 with
the remediation guidance and spawns nothing, and when it succeeds the
hit is spawned with the forwarded argument vector. -/
theorem C10_vibe_resolution (fs : FSys) (p : String) (pathDirs argv : List String)
    (run : String → List String → RunOutcome) (c : String → Option (List Nat)) :
    vibeMain { fs with content := c } pathDirs argv run
        = vibeMain fs pathDirs argv run ∧
      (which fs pathDirs "vibe" = none →
        (vibeMain fs pathDirs argv run).exitCode = 1 ∧
          (vibeMain fs pathDirs argv run).spawns = [] ∧
          (vibeMain fs pathDirs argv run).output = vibeNotFoundMsg) ∧
      (which fs pathDirs "vibe" = some p →
        (vibeMain fs pathDirs argv run).spawns = [(p, p :: argv.drop 1)]) := by
  refine ⟨rfl, fun h => ?_, fun h => ?_⟩
  · unfold vibeMain
    rw [h]
    exact ⟨rfl, rfl, rfl⟩
  · rw [vibeMain_resolved argv run h]
    cases hr : run p (p :: argv.drop 1) <;> rfl

/-- Witness for C10: the search path holds a `vibe` that is itself a
wrapper copy; it is spawned anyway, and the result is unchanged when all
file contents are erased. -/
theorem C10_witness :
    vibeMain { vFS with content := fun _ => none } ["/u"] ["vibe", "--version"]
        (fun _ _ => RunOutcome.completed 0)
      = vibeMain vFS ["/u"] ["vibe", "--version"]
          (fun _ _ => RunOutcome.completed 0) ∧
      (vibeMain vFS ["/u"] ["vibe", "--version"]
          (fun _ _ => RunOutcome.completed 0)).spawns
        = [("/u/vibe", ["/u/vibe", "--version"])] := by
  obtain ⟨h1, h2, h3⟩ :=
    C10_vibe_resolution vFS "/u/vibe" ["/u"] ["vibe", "--version"]
      (fun _ _ => RunOutcome.completed 0) (fun _ => none)
  exact ⟨h1, h3 (by decide)⟩
